import Mathlib

/-!
Verification of the authentication/session core and the permission
resolution engine of the Role-Based-Admin-Dashboard repository.

The operations are embedded shallowly from the JavaScript source:

* `AuthService.login`, `AuthService.refresh`, `AuthService.logout`,
  `AuthService.forceLogout` and `AuthService._generateTokenPair`
  (src/src/features/feature-flags/featureFlag.service.js, which holds the
  auth service after the flag service and the zod schemas);
* the `authorize` middleware (src/src/middleware/authorize.js);
* `config.cache.permissionsTTL` (src/src/config/index.js).

Modelling conventions:

* The relational store is explicit state: lists of rows per table.
  `findUnique` becomes `List.find?` over a unique column, `updateMany`
  becomes `List.map` with the matching predicate of its `where` clause.
* Signed token strings are opaque: `jwt.verify` and `jwt.decode` are
  function parameters returning the decoded claims, and the strings minted
  by `jwt.sign` are parameters of the operation that mints them.
* Storage writes whose failure a claim is about carry a Bool fault flag
  that says whether the write succeeds. The rotation in `refresh` runs its
  two writes through `Promise.all`: both writes are started, the effect of
  a write that succeeds persists even when the other fails, and the whole
  call rejects when either fails. The `lastLoginAt` write in `login` is
  awaited with no catch, so its failure rejects the login after the
  refresh-token row was already persisted. Writes no claim concerns are
  modelled as succeeding.
* The key-value cache of config/redis.js is modelled through the interface
  the middleware programs against: get returns the stored value, set
  stores (key, value, ttl). For `logout`, the blacklist writes are
  returned as an operation list so the ttl passed to `cache.set` is
  observable. (The checked-in redis.js stubs the backend to a no-op,
  which only means a deployment never hits; the middleware logic is
  unchanged by that.)
* Logger calls and read-only response decoration (the userRoles fetched by
  `login` for its reply) have no stored effect and are not modelled.
-/

namespace RBAC

/-- Organization row: id, unique slug, active flag. -/
structure Organization where
  id : Nat
  slug : String
  isActive : Bool
deriving DecidableEq, Repr

/-- User row: unique on (email, organizationId); passwordHash is the bcrypt
hash, lastLoginAt the last-login timestamp in epoch ms. -/
structure User where
  id : Nat
  email : String
  passwordHash : String
  firstName : String
  lastName : String
  organizationId : Nat
  isActive : Bool
  lastLoginAt : Option Nat
deriving DecidableEq, Repr

/-- RefreshToken row: unique token string, owning user, family id grouping
one login lineage, expiry in epoch ms, revoked flag. -/
structure RefreshTokenRow where
  id : Nat
  token : String
  userId : Nat
  family : String
  expiresAt : Nat
  isRevoked : Bool
deriving DecidableEq, Repr

/-- The relational state the auth service touches. -/
structure AuthDb where
  orgs : List Organization
  users : List User
  refreshTokens : List RefreshTokenRow
deriving DecidableEq, Repr

/-- Errors the embedded operations raise. `storage` stands for a
non-operational storage failure propagated by an awaited write. -/
inductive AuthError where
  | unauthorized (msg : String)
  | notFound (resource : String)
  | storage (msg : String)
deriving DecidableEq, Repr

/-- Claims carried by a refresh-token JWT: sub, organizationId, family. -/
structure RefreshPayload where
  sub : Nat
  organizationId : Nat
  family : String
deriving DecidableEq, Repr

/-- What a successful login returns: the token pair plus the user summary. -/
structure LoginResult where
  accessToken : String
  refreshToken : String
  userId : Nat
  email : String
  firstName : String
  lastName : String
  organizationId : Nat
deriving DecidableEq, Repr

/-- expiryToDate applied to config.jwt.refreshExpiry, default "7d": the new
row expires this many ms after now (src/src/utils/helpers.js). -/
def refreshExpiryMs : Nat := 7 * 86400000

/-- config.cache.permissionsTTL, hardcoded to 300 seconds
(src/src/config/index.js, line 56). -/
def permissionsTTL : Nat := 300

/-- Row update of `prisma.refreshToken.updateMany where family` in the
replay branch of `refresh`: every row of the family is marked revoked. -/
def revokeFamilyRow (fam : String) (r : RefreshTokenRow) : RefreshTokenRow :=
  if r.family == fam then { r with isRevoked := true } else r

/-- Row update of `prisma.refreshToken.update where id` in the rotation
branch of `refresh`. -/
def revokeByIdRow (rid : Nat) (r : RefreshTokenRow) : RefreshTokenRow :=
  if r.id == rid then { r with isRevoked := true } else r

/-- Row update of the `updateMany where token AND userId` in `logout`. -/
def logoutRevokeRow (rt : String) (uid : Nat) (r : RefreshTokenRow) : RefreshTokenRow :=
  if r.token == rt && r.userId == uid then { r with isRevoked := true } else r

/-- Row update of the `updateMany where userId AND isRevoked false` in
`forceLogout`. -/
def forceLogoutRow (uid : Nat) (r : RefreshTokenRow) : RefreshTokenRow :=
  if r.userId == uid && !r.isRevoked then { r with isRevoked := true } else r

/-- The refresh-token row persisted by `AuthService._generateTokenPair`:
the minted token string is opaque (parameter newTok), the family is the
one passed in (the caller supplies a fresh uuid on login). -/
def generateTokenPairRow (newId : Nat) (newTok : String) (userId : Nat)
    (tokenFamily : String) (now : Nat) : RefreshTokenRow :=
  { id := newId, token := newTok, userId := userId, family := tokenFamily,
    expiresAt := now + refreshExpiryMs, isRevoked := false }

/-- AuthService.refresh. `verify` models `jwt.verify` with the refresh
secret; `revokeOk`/`createOk` are the fault flags of the two rotation
writes run through `Promise.all` (see the module comment). The returned
pair is (new state of the call result, new store). -/
def refresh (verify : String → Option RefreshPayload) (now : Nat)
    (newId : Nat) (newTok : String) (newAccessTok : String)
    (revokeOk : Bool) (createOk : Bool)
    (db : AuthDb) (refreshToken : String) :
    Except AuthError (String × String) × AuthDb :=
  match verify refreshToken with
  | none => (Except.error (AuthError.unauthorized "Invalid refresh token"), db)
  | some _decoded =>
    match db.refreshTokens.find? (fun r => r.token == refreshToken) with
    | none => (Except.error (AuthError.unauthorized "Refresh token not found"), db)
    | some storedToken =>
      if storedToken.isRevoked then
        let db1 : AuthDb :=
          { db with refreshTokens := db.refreshTokens.map (revokeFamilyRow storedToken.family) }
        (Except.error (AuthError.unauthorized "Token reuse detected — all sessions revoked"), db1)
      else if storedToken.expiresAt < now then
        (Except.error (AuthError.unauthorized "Refresh token expired"), db)
      else
        match db.users.find? (fun u => u.id == storedToken.userId) with
        | none => (Except.error (AuthError.unauthorized "User account is deactivated"), db)
        | some user =>
          if !user.isActive then
            (Except.error (AuthError.unauthorized "User account is deactivated"), db)
          else
            let afterRevoke :=
              if revokeOk then db.refreshTokens.map (revokeByIdRow storedToken.id)
              else db.refreshTokens
            let newRow := generateTokenPairRow newId newTok user.id storedToken.family now
            let afterBoth := if createOk then afterRevoke ++ [newRow] else afterRevoke
            let db1 : AuthDb := { db with refreshTokens := afterBoth }
            if revokeOk && createOk then
              (Except.ok (newAccessTok, newTok), db1)
            else
              (Except.error (AuthError.storage "rotation write failed"), db1)

/-- AuthService.login. `bcmp` models `bcrypt.compare`; `lastLoginOk` is the
fault flag of the awaited `prisma.user.update` of lastLoginAt, which the
source runs after the token pair was generated and persisted. -/
def login (bcmp : String → String → Bool) (now : Nat)
    (newId : Nat) (newTok : String) (newAccessTok : String) (freshFamily : String)
    (lastLoginOk : Bool) (db : AuthDb)
    (email : String) (password : String) (organizationSlug : String) :
    Except AuthError LoginResult × AuthDb :=
  match db.orgs.find? (fun o => o.slug == organizationSlug) with
  | none => (Except.error (AuthError.notFound "Organization"), db)
  | some organization =>
    if !organization.isActive then
      (Except.error (AuthError.notFound "Organization"), db)
    else
      match db.users.find? (fun u => u.email == email && u.organizationId == organization.id) with
      | none => (Except.error (AuthError.unauthorized "Invalid credentials"), db)
      | some user =>
        if !user.isActive then
          (Except.error (AuthError.unauthorized "Invalid credentials"), db)
        else if !bcmp password user.passwordHash then
          (Except.error (AuthError.unauthorized "Invalid credentials"), db)
        else
          let newRow := generateTokenPairRow newId newTok user.id freshFamily now
          let db1 : AuthDb := { db with refreshTokens := db.refreshTokens ++ [newRow] }
          if lastLoginOk then
            let db2 : AuthDb :=
              { db1 with users :=
                  db1.users.map (fun u =>
                    if u.id == user.id then { u with lastLoginAt := some now } else u) }
            (Except.ok
              { accessToken := newAccessTok, refreshToken := newTok,
                userId := user.id, email := user.email,
                firstName := user.firstName, lastName := user.lastName,
                organizationId := organization.id }, db2)
          else
            (Except.error (AuthError.storage "lastLogin update failed"), db1)

/-- AuthService.logout. `decodeExp` models `jwt.decode` returning the exp
claim in epoch seconds (none when decode fails or the claim is absent; an
exp of 0 is falsy in the source and skipped there, and here it yields
ttl that is not positive and is skipped equally). The first component of
the result is the list of blacklist cache set operations issued, as
(key, ttlSeconds) pairs. -/
def logout (decodeExp : String → Option Nat) (nowMs : Nat)
    (accessToken : Option String) (refreshToken : Option String) (userId : Nat)
    (db : AuthDb) : List (String × Int) × AuthDb :=
  let ops : List (String × Int) :=
    match accessToken with
    | none => []
    | some t =>
      match decodeExp t with
      | none => []
      | some e =>
        let ttl : Int := (e : Int) - ((nowMs / 1000 : Nat) : Int)
        if 0 < ttl then [("blacklist:" ++ t, ttl)] else []
  let db1 : AuthDb :=
    match refreshToken with
    | none => db
    | some rt => { db with refreshTokens := db.refreshTokens.map (logoutRevokeRow rt userId) }
  (ops, db1)

/-- AuthService.forceLogout: revokes every non-revoked token of the user.
The cache delPattern call has no stored effect here. -/
def forceLogout (uid : Nat) (db : AuthDb) : AuthDb :=
  { db with refreshTokens := db.refreshTokens.map (forceLogoutRow uid) }

/-- Number of non-revoked rows of one family: the quantity the token
family invariant bounds by one. -/
def activeInFamily (db : AuthDb) (fam : String) : Nat :=
  (db.refreshTokens.filter (fun r => r.family == fam && !r.isRevoked)).length

/-- UserRole junction row. -/
structure UserRole where
  userId : Nat
  roleId : Nat
deriving DecidableEq, Repr

/-- Role row; only the columns the authorize middleware consults. -/
structure Role where
  id : Nat
  name : String
  isActive : Bool
deriving DecidableEq, Repr

/-- RolePermission junction row. -/
structure RolePermission where
  roleId : Nat
  permissionId : Nat
deriving DecidableEq, Repr

/-- Permission row: id, action string, active flag. -/
structure Permission where
  id : Nat
  action : String
  isActive : Bool
deriving DecidableEq, Repr

/-- The relational state the authorize middleware reads. -/
structure PermDb where
  userRoles : List UserRole
  roles : List Role
  rolePermissions : List RolePermission
  permissions : List Permission
deriving DecidableEq, Repr

/-- Spread of a JS Set built from a list, as in `[...new Set(xs)]`: keeps
the first occurrence of each element, in order. -/
def jsSetDedup (xs : List String) : List String :=
  xs.foldl (fun acc x => if x ∈ acc then acc else acc ++ [x]) []

/-- Action strings one RolePermission row contributes: its permission,
when present and active (`rp.permission && rp.permission.isActive`). -/
def rpAction (db : PermDb) (rp : RolePermission) : List String :=
  match db.permissions.find? (fun p => p.id == rp.permissionId) with
  | none => []
  | some p => if p.isActive then [p.action] else []

/-- Action strings of all permission rows assigned to one role. -/
def rolePermActions (db : PermDb) (role : Role) : List String :=
  (db.rolePermissions.filter (fun rp => rp.roleId == role.id)).flatMap (rpAction db)

/-- Action strings one UserRole row contributes: those of its role, when
the role is present and active (`ur.role && ur.role.isActive`). -/
def userRoleActions (db : PermDb) (ur : UserRole) : List String :=
  match db.roles.find? (fun r => r.id == ur.roleId) with
  | none => []
  | some role => if role.isActive then rolePermActions db role else []

/-- The cache-miss permission computation of the authorize middleware:
role assignments of the user, active roles only, active permissions only,
flattened and deduplicated action strings. -/
def permsFromDb (db : PermDb) (userId : Nat) : List String :=
  jsSetDedup ((db.userRoles.filter (fun ur => ur.userId == userId)).flatMap (userRoleActions db))

/-- Permission cache: (key, value, ttlSeconds) entries, most recent first. -/
abbrev PermCache := List (String × List String × Nat)

/-- cache.get of the key-value interface: value of the most recent entry
under the key, absent on a miss. -/
def cacheGet (c : PermCache) (k : String) : Option (List String) :=
  (c.find? (fun e => e.1 == k)).map (fun e => e.2.1)

/-- cache.set of the key-value interface. -/
def cacheSet (c : PermCache) (k : String) (v : List String) (ttl : Nat) : PermCache :=
  (k, v, ttl) :: c

/-- The cache key of the authorize middleware. -/
def permCacheKey (userId orgId : Nat) : String := s!"permissions:{userId}:{orgId}"

/-- The cache-first permission resolution of the authorize middleware:
returns the resolved action strings and the cache state afterwards. The
miss test is `!userPermissions`, so any stored list, an empty one
included, is a hit. -/
def resolvePermissions (c : PermCache) (db : PermDb) (userId orgId : Nat) :
    List String × PermCache :=
  match cacheGet c (permCacheKey userId orgId) with
  | some ps => (ps, c)
  | none =>
    let ps := permsFromDb db userId
    (ps, cacheSet c (permCacheKey userId orgId) ps permissionsTTL)

/-- The authorize middleware for one request: resolves the permission set,
then allows when any required permission is contained in it, and signals
Forbidden (false) otherwise. Result: (allowed, resolved set, cache). -/
def authorize (required : List String) (c : PermCache) (db : PermDb)
    (userId orgId : Nat) : Bool × List String × PermCache :=
  let r := resolvePermissions c db userId orgId
  (required.any (fun p => r.1.contains p), r.1, r.2)

/-- Sample organization for concrete evaluations. -/
def sampleOrg : Organization := { id := 1, slug := "acme", isActive := true }

/-- Sample active user; the bcrypt hash is opaque, the sample comparator
below treats it as matching exactly the password "pw". -/
def sampleUser : User :=
  { id := 1, email := "a@b.c", passwordHash := "hashpw", firstName := "Ada",
    lastName := "Lovelace", organizationId := 1, isActive := true, lastLoginAt := none }

/-- Sample bcrypt.compare: matches when the hash is "hash" ++ password. -/
def sampleBcmp (password hash : String) : Bool := hash == "hash" ++ password

/-- Sample already-revoked refresh-token row of family "fam0". -/
def sampleRevokedRow : RefreshTokenRow :=
  { id := 10, token := "rt0", userId := 1, family := "fam0",
    expiresAt := 9999999, isRevoked := true }

/-- Second row of family "fam0", still active: rotated-to successor. -/
def sampleOtherRow : RefreshTokenRow :=
  { id := 11, token := "rt1", userId := 1, family := "fam0",
    expiresAt := 9999999, isRevoked := false }

/-- Sample store for the replay scenario: the presented row rt0 is already
revoked, its family successor rt1 is still active. -/
def sampleDb : AuthDb :=
  { orgs := [sampleOrg], users := [sampleUser],
    refreshTokens := [sampleRevokedRow, sampleOtherRow] }

/-- Sample jwt.verify: accepts rt0 and rtA with their stored claims. -/
def sampleVerify : String → Option RefreshPayload := fun t =>
  if t == "rt0" then some { sub := 1, organizationId := 1, family := "fam0" }
  else if t == "rtA" then some { sub := 1, organizationId := 1, family := "famA" }
  else none

/-- Sample active refresh-token row of family "famA", used for the
rotation fault scenarios. -/
def activeRowA : RefreshTokenRow :=
  { id := 30, token := "rtA", userId := 1, family := "famA",
    expiresAt := 1000000, isRevoked := false }

/-- Store holding one active token of family "famA" and its active owner. -/
def rotateDb : AuthDb :=
  { orgs := [sampleOrg], users := [sampleUser], refreshTokens := [activeRowA] }

/-- Store with no refresh tokens, for login evaluations. -/
def loginDb : AuthDb :=
  { orgs := [sampleOrg], users := [sampleUser], refreshTokens := [] }

/-- Sample jwt.decode for logout: the token "at0" carries exp claim 200,
the token "atOld" carries exp claim 50. -/
def sampleDecodeExp : String → Option Nat := fun t =>
  if t == "at0" then some 200 else if t == "atOld" then some 50 else none

deriving instance DecidableEq for Except

/-- Whether a login outcome failed with the Unauthorized kind. -/
def isUnauthorizedResult (r : Except AuthError LoginResult) : Bool :=
  match r with
  | Except.error (AuthError.unauthorized _) => true
  | _ => false

/-- Sample permission store: user 1 holds role 1 (active) with an active
USER_READ and an inactive USER_DELETE, and role 2 (inactive) with an
active ROLE_UPDATE. -/
def samplePermDb : PermDb :=
  { userRoles := [{ userId := 1, roleId := 1 }, { userId := 1, roleId := 2 }],
    roles := [{ id := 1, name := "ADMIN", isActive := true },
              { id := 2, name := "OLD", isActive := false }],
    rolePermissions := [{ roleId := 1, permissionId := 1 }, { roleId := 1, permissionId := 2 },
                        { roleId := 2, permissionId := 3 }],
    permissions := [{ id := 1, action := "USER_READ", isActive := true },
                    { id := 2, action := "USER_DELETE", isActive := false },
                    { id := 3, action := "ROLE_UPDATE", isActive := true }] }

/-- Helper: revokeFamilyRow keeps the family column. -/
theorem revokeFamilyRow_family (fam : String) (r : RefreshTokenRow) :
    (revokeFamilyRow fam r).family = r.family := by
  unfold revokeFamilyRow
  split <;> rfl

/-- Helper: a row whose family matches is revoked by revokeFamilyRow. -/
theorem revokeFamilyRow_revoked (fam : String) (r : RefreshTokenRow)
    (h : r.family = fam) : (revokeFamilyRow fam r).isRevoked = true := by
  unfold revokeFamilyRow
  simp [h]

/-- Helper: a row of another family is untouched by revokeFamilyRow. -/
theorem revokeFamilyRow_other (fam : String) (r : RefreshTokenRow)
    (h : r.family ≠ fam) : revokeFamilyRow fam r = r := by
  unfold revokeFamilyRow
  simp [h]

/-- C10: when both cache keys miss, the permission list resolved for the
same user over the same store is identical for any two organization ids:
the relational read filters by user id only, the organization id only
forms the cache key. -/
theorem resolve_independent_of_org (c : PermCache) (db : PermDb)
    (userId orgA orgB : Nat)
    (hA : cacheGet c (permCacheKey userId orgA) = none)
    (hB : cacheGet c (permCacheKey userId orgB) = none) :
    (resolvePermissions c db userId orgA).1 = (resolvePermissions c db userId orgB).1 := by
  unfold resolvePermissions
  rw [hA, hB]

/-- C10 witness: the empty cache misses every key; user 1 resolves to the
same list under organization ids 2 and 3. -/
theorem resolve_independent_of_org_witness :
    cacheGet [] (permCacheKey 1 2) = none
    ∧ cacheGet [] (permCacheKey 1 3) = none
    ∧ (resolvePermissions [] samplePermDb 1 2).1 = (resolvePermissions [] samplePermDb 1 3).1 :=
  ⟨rfl, rfl, resolve_independent_of_org [] samplePermDb 1 2 3 rfl rfl⟩

/-- C8: logout with a refresh token rewrites the store pointwise through
logoutRevokeRow, and a row whose token differs from the presented one is
returned unchanged, its revoked flag included — so other rows of the same
family are never revoked by logout. -/
theorem logout_revokes_only_presented (decodeExp : String → Option Nat)
    (nowMs : Nat) (atk : Option String) (rt : String) (uid : Nat) (db : AuthDb)
    (r : RefreshTokenRow) (hne : r.token ≠ rt) :
    logoutRevokeRow rt uid r = r
      ∧ (logout decodeExp nowMs atk (some rt) uid db).2.refreshTokens
        = db.refreshTokens.map (logoutRevokeRow rt uid) := by
  constructor
  · unfold logoutRevokeRow
    simp [hne]
  · unfold logout
    cases atk <;> simp

/-- C8 witness: in sampleDb, logging out with token rt0 leaves row rt1 of
the same family fam0 untouched. -/
theorem logout_revokes_only_presented_witness :
    sampleOtherRow.token ≠ "rt0"
    ∧ (logoutRevokeRow "rt0" 1 sampleOtherRow = sampleOtherRow
      ∧ (logout sampleDecodeExp 100000 none (some "rt0") 1 sampleDb).2.refreshTokens
        = sampleDb.refreshTokens.map (logoutRevokeRow "rt0" 1)) :=
  ⟨by decide,
   logout_revokes_only_presented sampleDecodeExp 100000 none "rt0" 1 sampleDb
     sampleOtherRow (by decide)⟩

/-- C7: when the presented access token decodes to exp claim e, logout
issues exactly one blacklist cache write whose ttl is e minus the current
epoch second when that is positive, and no write at all otherwise. -/
theorem logout_blacklist_ttl (decodeExp : String → Option Nat) (nowMs : Nat)
    (t : String) (rt : Option String) (uid : Nat) (db : AuthDb) (e : Nat)
    (hdec : decodeExp t = some e) :
    (0 < (e : Int) - ((nowMs / 1000 : Nat) : Int) →
        (logout decodeExp nowMs (some t) rt uid db).1
          = [("blacklist:" ++ t, (e : Int) - ((nowMs / 1000 : Nat) : Int))])
      ∧ ((e : Int) - ((nowMs / 1000 : Nat) : Int) ≤ 0 →
        (logout decodeExp nowMs (some t) rt uid db).1 = []) := by
  constructor
  · intro h
    unfold logout
    simp [hdec, h]
    omega
  · intro h
    unfold logout
    simp [hdec, not_lt.mpr h]
    omega

/-- C7 witness: at epoch second 100, the token at0 (exp 200) is
blacklisted for exactly 100 seconds and the token atOld (exp 50) is not
blacklisted at all. -/
theorem logout_blacklist_ttl_witness :
    sampleDecodeExp "at0" = some 200
    ∧ sampleDecodeExp "atOld" = some 50
    ∧ (logout sampleDecodeExp 100000 (some "at0") none 1 loginDb).1 = [("blacklist:at0", 100)]
    ∧ (logout sampleDecodeExp 100000 (some "atOld") none 1 loginDb).1 = [] := by
  refine ⟨by decide, by decide, ?_, ?_⟩
  · rw [(logout_blacklist_ttl sampleDecodeExp 100000 "at0" none 1 loginDb 200 (by decide)).1
      (by decide)]
    decide
  · exact (logout_blacklist_ttl sampleDecodeExp 100000 "atOld" none 1 loginDb 50 (by decide)).2
      (by decide)

/-- C2: evaluation of the rotation at the failing input. The revoke-old
write succeeds and the create-new write fails: the call rejects, yet the
store is changed — the old token is revoked with no new token created,
exactly the partial application the claim says cannot be observed. -/
theorem refresh_create_failure_partial_state :
    (refresh sampleVerify 100 31 "rtB" "atB" true false rotateDb "rtA").1
        = Except.error (AuthError.storage "rotation write failed")
      ∧ (refresh sampleVerify 100 31 "rtB" "atB" true false rotateDb "rtA").2.refreshTokens
        = [{ activeRowA with isRevoked := true }]
      ∧ (refresh sampleVerify 100 31 "rtB" "atB" true false rotateDb "rtA").2 ≠ rotateDb := by
  decide

/-- C3: evaluation of the rotation at the failing input. Family famA holds
one non-revoked row; a refresh whose revoke-old write fails while the
create-new write succeeds ends with two non-revoked rows in famA. -/
theorem refresh_revoke_failure_two_active :
    activeInFamily rotateDb "famA" = 1
      ∧ (refresh sampleVerify 100 31 "rtB" "atB" false true rotateDb "rtA").1
        = Except.error (AuthError.storage "rotation write failed")
      ∧ activeInFamily
          (refresh sampleVerify 100 31 "rtB" "atB" false true rotateDb "rtA").2 "famA" = 2 := by
  decide

/-- C9: evaluation of login at the failing input. With valid credentials
and a failing lastLoginAt write, login rejects with the storage error
instead of succeeding; the same call with the write succeeding returns
the token pair. -/
theorem login_lastLogin_failure_fails_login :
    (login sampleBcmp 100 20 "rt9" "at9" "famX" false loginDb "a@b.c" "pw" "acme").1
        = Except.error (AuthError.storage "lastLogin update failed")
      ∧ (login sampleBcmp 100 20 "rt9" "at9" "famX" true loginDb "a@b.c" "pw" "acme").1
        = Except.ok
            { accessToken := "at9", refreshToken := "rt9", userId := 1, email := "a@b.c",
              firstName := "Ada", lastName := "Lovelace", organizationId := 1 } := by
  decide

/-- C6 counterexample: the seeded triple (a@b.c, pw, acme) logs in;
altering only the organization slug fails with NotFound "Organization",
not with the Unauthorized kind, while altering the email or the password
fails with Unauthorized "Invalid credentials" — so the wrong-organization
case is a distinguishable signal. -/
theorem login_wrong_org_distinguishable :
    (login sampleBcmp 100 20 "rt9" "at9" "famX" true loginDb "a@b.c" "pw" "acme").1
        = Except.ok
            { accessToken := "at9", refreshToken := "rt9", userId := 1, email := "a@b.c",
              firstName := "Ada", lastName := "Lovelace", organizationId := 1 }
      ∧ (login sampleBcmp 100 20 "rt9" "at9" "famX" true loginDb "a@b.c" "pw" "other").1
        = Except.error (AuthError.notFound "Organization")
      ∧ isUnauthorizedResult
          (login sampleBcmp 100 20 "rt9" "at9" "famX" true loginDb "a@b.c" "pw" "other").1 = false
      ∧ (login sampleBcmp 100 20 "rt9" "at9" "famX" true loginDb "x@b.c" "pw" "acme").1
        = Except.error (AuthError.unauthorized "Invalid credentials")
      ∧ (login sampleBcmp 100 20 "rt9" "at9" "famX" true loginDb "a@b.c" "no" "acme").1
        = Except.error (AuthError.unauthorized "Invalid credentials") := by
  decide

/-- C1: when the presented refresh token verifies and its stored record is
already revoked, refresh returns the store in which every row of that
family is revoked and fails with Unauthorized "Token reuse detected — all
sessions revoked": the revocation is present in the resulting state even
though the call fails and no new pair is issued, and rows of other
families are untouched by the rewriting. -/
theorem refresh_replay_revokes_family (verify : String → Option RefreshPayload)
    (now newId : Nat) (newTok newAccessTok : String) (revokeOk createOk : Bool)
    (db : AuthDb) (rt : String) (pl : RefreshPayload) (st : RefreshTokenRow)
    (hver : verify rt = some pl)
    (hfind : db.refreshTokens.find? (fun r => r.token == rt) = some st)
    (hrev : st.isRevoked = true) :
    (refresh verify now newId newTok newAccessTok revokeOk createOk db rt).1
        = Except.error (AuthError.unauthorized "Token reuse detected — all sessions revoked")
      ∧ (refresh verify now newId newTok newAccessTok revokeOk createOk db rt).2.refreshTokens
        = db.refreshTokens.map (revokeFamilyRow st.family)
      ∧ (∀ r ∈ (refresh verify now newId newTok newAccessTok revokeOk createOk db rt).2.refreshTokens,
          r.family = st.family → r.isRevoked = true)
      ∧ (∀ r : RefreshTokenRow, r.family ≠ st.family → revokeFamilyRow st.family r = r) := by
  have hmain : refresh verify now newId newTok newAccessTok revokeOk createOk db rt
      = (Except.error (AuthError.unauthorized "Token reuse detected — all sessions revoked"),
         { db with refreshTokens := db.refreshTokens.map (revokeFamilyRow st.family) }) := by
    unfold refresh
    rw [hver, hfind]
    simp [hrev]
  refine ⟨by rw [hmain], by rw [hmain], ?_, ?_⟩
  · intro r hr hfam
    rw [hmain] at hr
    simp only [List.mem_map] at hr
    obtain ⟨a, _, rfl⟩ := hr
    apply revokeFamilyRow_revoked
    rwa [revokeFamilyRow_family] at hfam
  · intro r hfam
    exact revokeFamilyRow_other _ _ hfam

/-- C1 witness: the replay theorem at the concrete store sampleDb, whose
row rt0 is already revoked; the still-active family member rt1 is revoked
in the resulting store while the call fails. -/
theorem refresh_replay_revokes_family_witness :
    sampleVerify "rt0" = some { sub := 1, organizationId := 1, family := "fam0" }
    ∧ sampleDb.refreshTokens.find? (fun r => r.token == "rt0") = some sampleRevokedRow
    ∧ sampleRevokedRow.isRevoked = true
    ∧ ((refresh sampleVerify 100 12 "rt2" "at2" true true sampleDb "rt0").1
        = Except.error (AuthError.unauthorized "Token reuse detected — all sessions revoked")
      ∧ (refresh sampleVerify 100 12 "rt2" "at2" true true sampleDb "rt0").2.refreshTokens
        = sampleDb.refreshTokens.map (revokeFamilyRow sampleRevokedRow.family)
      ∧ (∀ r ∈ (refresh sampleVerify 100 12 "rt2" "at2" true true sampleDb "rt0").2.refreshTokens,
          r.family = sampleRevokedRow.family → r.isRevoked = true)
      ∧ (∀ r : RefreshTokenRow, r.family ≠ sampleRevokedRow.family →
          revokeFamilyRow sampleRevokedRow.family r = r)) :=
  ⟨by decide, by decide, by decide,
   refresh_replay_revokes_family sampleVerify 100 12 "rt2" "at2" true true sampleDb "rt0"
     { sub := 1, organizationId := 1, family := "fam0" } sampleRevokedRow
     (by decide) (by decide) (by decide)⟩

/-- C6 (amended): with organization, user and password matching, login
returns the token pair; a non-matching email and a non-matching password
both fail with the identical Unauthorized "Invalid credentials"; a
non-matching organization slug instead fails with NotFound
"Organization", a distinguishable signal. -/
theorem login_error_channels (bcmp : String → String → Bool) (now newId : Nat)
    (newTok newAccessTok freshFamily : String) (db : AuthDb)
    (email password slug : String) (org : Organization) (user : User)
    (horg : db.orgs.find? (fun o => o.slug == slug) = some org)
    (hoact : org.isActive = true)
    (huser : db.users.find? (fun u => u.email == email && u.organizationId == org.id) = some user)
    (huact : user.isActive = true)
    (hpw : bcmp password user.passwordHash = true) :
    (login bcmp now newId newTok newAccessTok freshFamily true db email password slug).1
        = Except.ok
            { accessToken := newAccessTok, refreshToken := newTok, userId := user.id,
              email := user.email, firstName := user.firstName, lastName := user.lastName,
              organizationId := org.id }
      ∧ (∀ email2,
          db.users.find? (fun u => u.email == email2 && u.organizationId == org.id) = none →
          (login bcmp now newId newTok newAccessTok freshFamily true db email2 password slug).1
            = Except.error (AuthError.unauthorized "Invalid credentials"))
      ∧ (∀ password2, bcmp password2 user.passwordHash = false →
          (login bcmp now newId newTok newAccessTok freshFamily true db email password2 slug).1
            = Except.error (AuthError.unauthorized "Invalid credentials"))
      ∧ (∀ slug2, db.orgs.find? (fun o => o.slug == slug2) = none →
          (login bcmp now newId newTok newAccessTok freshFamily true db email password slug2).1
            = Except.error (AuthError.notFound "Organization")) := by
  refine ⟨?_, ?_, ?_, ?_⟩
  · unfold login
    rw [horg]
    simp only [hoact, Bool.not_true, Bool.false_eq_true, if_false]
    rw [huser]
    simp [huact, hpw]
  · intro email2 h2
    unfold login
    rw [horg]
    simp only [hoact, Bool.not_true, Bool.false_eq_true, if_false]
    rw [h2]
  · intro password2 h2
    unfold login
    rw [horg]
    simp only [hoact, Bool.not_true, Bool.false_eq_true, if_false]
    rw [huser]
    simp [huact, h2]
  · intro slug2 h2
    unfold login
    rw [h2]

/-- C6 witness: the amended theorem at loginDb with the seeded triple. -/
theorem login_error_channels_witness :
    loginDb.orgs.find? (fun o => o.slug == "acme") = some sampleOrg
    ∧ sampleOrg.isActive = true
    ∧ loginDb.users.find? (fun u => u.email == "a@b.c" && u.organizationId == sampleOrg.id)
        = some sampleUser
    ∧ sampleUser.isActive = true
    ∧ sampleBcmp "pw" sampleUser.passwordHash = true
    ∧ ((login sampleBcmp 100 20 "rt9" "at9" "famX" true loginDb "a@b.c" "pw" "acme").1
        = Except.ok
            { accessToken := "at9", refreshToken := "rt9", userId := sampleUser.id,
              email := sampleUser.email, firstName := sampleUser.firstName,
              lastName := sampleUser.lastName, organizationId := sampleOrg.id }
      ∧ (∀ email2,
          loginDb.users.find?
              (fun u => u.email == email2 && u.organizationId == sampleOrg.id) = none →
          (login sampleBcmp 100 20 "rt9" "at9" "famX" true loginDb email2 "pw" "acme").1
            = Except.error (AuthError.unauthorized "Invalid credentials"))
      ∧ (∀ password2, sampleBcmp password2 sampleUser.passwordHash = false →
          (login sampleBcmp 100 20 "rt9" "at9" "famX" true loginDb "a@b.c" password2 "acme").1
            = Except.error (AuthError.unauthorized "Invalid credentials"))
      ∧ (∀ slug2, loginDb.orgs.find? (fun o => o.slug == slug2) = none →
          (login sampleBcmp 100 20 "rt9" "at9" "famX" true loginDb "a@b.c" "pw" slug2).1
            = Except.error (AuthError.notFound "Organization"))) :=
  ⟨by decide, by decide, by decide, by decide, by decide,
   login_error_channels sampleBcmp 100 20 "rt9" "at9" "famX" loginDb "a@b.c" "pw" "acme"
     sampleOrg sampleUser (by decide) (by decide) (by decide) (by decide) (by decide)⟩

/-- C4: with a non-empty required list, authorize allows exactly when some
required permission is a member of the resolved permission set, and an
empty resolved set is denied. -/
theorem authorize_iff_some_required (required : List String) (c : PermCache)
    (db : PermDb) (userId orgId : Nat) (hne : required ≠ []) :
    ((authorize required c db userId orgId).1 = true
        ↔ ∃ p ∈ required, p ∈ (authorize required c db userId orgId).2.1)
      ∧ ((authorize required c db userId orgId).2.1 = [] →
        (authorize required c db userId orgId).1 = false) := by
  constructor
  · unfold authorize
    simp [List.any_eq_true]
  · intro h
    unfold authorize at h ⊢
    simp only at h ⊢
    rw [h]
    simp

/-- C4 witness: with required list USER_READ, the empty cache and
samplePermDb, user 1 is allowed exactly because USER_READ is in the
resolved set. -/
theorem authorize_iff_some_required_witness :
    (["USER_READ"] : List String) ≠ []
    ∧ (((authorize ["USER_READ"] [] samplePermDb 1 2).1 = true
        ↔ ∃ p ∈ (["USER_READ"] : List String),
            p ∈ (authorize ["USER_READ"] [] samplePermDb 1 2).2.1)
      ∧ ((authorize ["USER_READ"] [] samplePermDb 1 2).2.1 = [] →
        (authorize ["USER_READ"] [] samplePermDb 1 2).1 = false)) :=
  ⟨by decide, authorize_iff_some_required ["USER_READ"] [] samplePermDb 1 2 (by decide)⟩

/-- Helper: membership across the fold that spreads a JS Set. -/
theorem mem_jsSetDedup_fold (xs : List String) (acc : List String) (a : String) :
    a ∈ xs.foldl (fun acc x => if x ∈ acc then acc else acc ++ [x]) acc
      ↔ a ∈ acc ∨ a ∈ xs := by
  induction xs generalizing acc with
  | nil => simp
  | cons y ys ih =>
    simp only [List.foldl_cons]
    by_cases h : y ∈ acc
    · rw [if_pos h, ih]
      constructor
      · rintro (ha | hy)
        · exact Or.inl ha
        · exact Or.inr (List.mem_cons_of_mem _ hy)
      · rintro (ha | hy)
        · exact Or.inl ha
        · rcases List.mem_cons.mp hy with rfl | hy2
          · exact Or.inl h
          · exact Or.inr hy2
    · rw [if_neg h, ih]
      simp only [List.mem_append, List.mem_singleton, List.mem_cons]
      tauto

/-- Helper: jsSetDedup preserves membership. -/
theorem mem_jsSetDedup (xs : List String) (a : String) :
    a ∈ jsSetDedup xs ↔ a ∈ xs := by
  unfold jsSetDedup
  rw [mem_jsSetDedup_fold]
  simp

/-- Helper: the fold that spreads a JS Set keeps the accumulator free of
duplicates. -/
theorem nodup_jsSetDedup_fold (xs : List String) (acc : List String) (hacc : acc.Nodup) :
    (xs.foldl (fun acc x => if x ∈ acc then acc else acc ++ [x]) acc).Nodup := by
  induction xs generalizing acc with
  | nil => simpa using hacc
  | cons y ys ih =>
    simp only [List.foldl_cons]
    by_cases h : y ∈ acc
    · rw [if_pos h]
      exact ih acc hacc
    · rw [if_neg h]
      apply ih
      simp only [List.nodup_append, List.nodup_singleton, List.disjoint_singleton]
      exact ⟨hacc, trivial, h⟩

/-- Helper: jsSetDedup returns a duplicate-free list. -/
theorem nodup_jsSetDedup (xs : List String) : (jsSetDedup xs).Nodup :=
  nodup_jsSetDedup_fold xs [] List.nodup_nil

/-- Helper: membership in the actions one RolePermission row contributes. -/
theorem mem_rpAction (db : PermDb) (rp : RolePermission) (a : String) :
    a ∈ rpAction db rp
      ↔ ∃ p, db.permissions.find? (fun q => q.id == rp.permissionId) = some p
          ∧ p.isActive = true ∧ p.action = a := by
  unfold rpAction
  split
  next h => simp [h]
  next p h =>
    by_cases hp : p.isActive
    · rw [if_pos hp]
      constructor
      · intro ha
        exact ⟨p, h, hp, (List.mem_singleton.mp ha).symm⟩
      · rintro ⟨q, hq, hqact, hqa⟩
        rw [h] at hq
        cases Option.some.inj hq
        exact List.mem_singleton.mpr hqa.symm
    · rw [if_neg hp]
      constructor
      · intro ha
        exact absurd ha (List.not_mem_nil a)
      · rintro ⟨q, hq, hqact, hqa⟩
        rw [h] at hq
        cases Option.some.inj hq
        exact absurd hqact hp

/-- Helper: membership in the actions of one role. -/
theorem mem_rolePermActions (db : PermDb) (role : Role) (a : String) :
    a ∈ rolePermActions db role
      ↔ ∃ rp ∈ db.rolePermissions, rp.roleId = role.id
          ∧ ∃ p, db.permissions.find? (fun q => q.id == rp.permissionId) = some p
              ∧ p.isActive = true ∧ p.action = a := by
  unfold rolePermActions
  rw [List.mem_flatMap]
  constructor
  · rintro ⟨rp, hrp, ha⟩
    rw [List.mem_filter] at hrp
    exact ⟨rp, hrp.1, by simpa using hrp.2, (mem_rpAction db rp a).mp ha⟩
  · rintro ⟨rp, hmem, hrid, hp⟩
    exact ⟨rp, List.mem_filter.mpr ⟨hmem, by simpa using hrid⟩, (mem_rpAction db rp a).mpr hp⟩

/-- Helper: membership in the actions one UserRole row contributes. -/
theorem mem_userRoleActions (db : PermDb) (ur : UserRole) (a : String) :
    a ∈ userRoleActions db ur
      ↔ ∃ role, db.roles.find? (fun r => r.id == ur.roleId) = some role
          ∧ role.isActive = true ∧ a ∈ rolePermActions db role := by
  unfold userRoleActions
  split
  next h => simp [h]
  next role h => by_cases hr : role.isActive <;> simp [h, hr]

/-- Helper: membership in the cache-miss permission computation: exactly
the action strings of active permissions assigned to active roles of the
user. -/
theorem mem_permsFromDb (db : PermDb) (userId : Nat) (a : String) :
    a ∈ permsFromDb db userId
      ↔ ∃ ur ∈ db.userRoles, ur.userId = userId
          ∧ ∃ role, db.roles.find? (fun r => r.id == ur.roleId) = some role
              ∧ role.isActive = true
              ∧ ∃ rp ∈ db.rolePermissions, rp.roleId = role.id
                  ∧ ∃ p, db.permissions.find? (fun q => q.id == rp.permissionId) = some p
                      ∧ p.isActive = true ∧ p.action = a := by
  unfold permsFromDb
  rw [mem_jsSetDedup, List.mem_flatMap]
  constructor
  · rintro ⟨ur, hur, ha⟩
    rw [List.mem_filter] at hur
    obtain ⟨role, hrole, hact, hmem⟩ := (mem_userRoleActions db ur a).mp ha
    obtain ⟨rp, hrp, hrid, hp⟩ := (mem_rolePermActions db role a).mp hmem
    exact ⟨ur, hur.1, by simpa using hur.2, role, hrole, hact, rp, hrp, hrid, hp⟩
  · rintro ⟨ur, hmem, huid, role, hrole, hact, rp, hrp, hrid, hp⟩
    refine ⟨ur, List.mem_filter.mpr ⟨hmem, by simpa using huid⟩, ?_⟩
    exact (mem_userRoleActions db ur a).mpr
      ⟨role, hrole, hact, (mem_rolePermActions db role a).mpr ⟨rp, hrp, hrid, hp⟩⟩

/-- C5: permission resolution is cache-first. On a hit the cached set is
returned with the cache unchanged, independently of the relational store
(any store gives the same outcome). On a miss the returned set holds
exactly the action strings of active permissions of active roles assigned
to the user, without duplicates, and the cache gains that set under the
resolved key with ttl permissionsTTL, which is 300 seconds. -/
theorem resolve_cache_first (c : PermCache) (db : PermDb) (userId orgId : Nat) :
    (∀ ps, cacheGet c (permCacheKey userId orgId) = some ps →
        ∀ db2 : PermDb, resolvePermissions c db2 userId orgId = (ps, c))
      ∧ (cacheGet c (permCacheKey userId orgId) = none →
        (resolvePermissions c db userId orgId).2
            = (permCacheKey userId orgId, (resolvePermissions c db userId orgId).1,
                permissionsTTL) :: c
          ∧ permissionsTTL = 300
          ∧ (resolvePermissions c db userId orgId).1.Nodup
          ∧ (∀ a, a ∈ (resolvePermissions c db userId orgId).1 ↔
              ∃ ur ∈ db.userRoles, ur.userId = userId
                ∧ ∃ role, db.roles.find? (fun r => r.id == ur.roleId) = some role
                    ∧ role.isActive = true
                    ∧ ∃ rp ∈ db.rolePermissions, rp.roleId = role.id
                        ∧ ∃ p, db.permissions.find? (fun q => q.id == rp.permissionId) = some p
                            ∧ p.isActive = true ∧ p.action = a)) := by
  constructor
  · intro ps hps db2
    unfold resolvePermissions
    rw [hps]
  · intro hmiss
    have hres : resolvePermissions c db userId orgId
        = (permsFromDb db userId,
           cacheSet c (permCacheKey userId orgId) (permsFromDb db userId) permissionsTTL) := by
      unfold resolvePermissions
      rw [hmiss]
    refine ⟨by rw [hres]; rfl, rfl, ?_, ?_⟩
    · rw [hres]
      unfold permsFromDb
      exact nodup_jsSetDedup _
    · intro a
      rw [hres]
      exact mem_permsFromDb db userId a

end RBAC
